import Mathlib

/-!
Shallow embedding of the core algorithms of the IEEE 802.15.4 TSCH MAC layer
and of the kernel timeout queue, together with proofs about them.

Each definition is translated from one function of the C source tree:

* `src/kernel/timeout.c` — the generic timeout queue
  (`z_timeout_q_add_timeout`, `z_timeout_q_timeout_announce`,
  `z_timeout_q_abort_timeout`);
* `src/subsys/net/l2/ieee802154/ieee802154_frame.c` and its sibling copy
  `src/unnamed/part_004` — the frame codec (`parse_fcf_seq`, `parse_addr`,
  `ieee802154_parse_aux_security_hdr`, `ieee802154_parse_mhr`,
  `initialize_generic_frame_fcf`, `outgoing_security_procedure`,
  `ieee802154_incoming_security_procedure`);
* `src/subsys/net/l2/ieee802154/ieee802154_security.c` — the CCM* nonce
  derivation in `prepare_aead`;
* `src/unnamed/part_001` — the TSCH link selector
  (`default_tsch_link_comparator`,
  `ieee802154_tsch_schedule_get_next_active_link`);
* `src/unnamed/part_003` — the TSCH RX handler (`ieee802154_tsch_handle_rx`).

Machine integers are modelled as `Nat`/`Int` with explicit `% 2 ^ w`
reductions at the points where the C code can overflow or truncate.
Buffers are `List Nat` of byte values.
-/

namespace ZephyrL2

/- ===================================================================== -/
/- Part 1: kernel timeout queue, src/kernel/timeout.c                    -/
/- ===================================================================== -/

/-- Timeout queue node (`struct _timeout`), reduced to the fields the queue
algorithms read: a node identifier (standing for the node and its callback
`fn`) and the tick delta to the predecessor node (`dticks`). The queue itself
is the sorted delta list, head first. -/
structure TimeoutNode where
  id : Nat
  dticks : Int
deriving DecidableEq, Repr

/-- Insertion loop of `z_timeout_q_add_timeout_locked`: walk the list
decrementing the new node's delta; a node with a strictly larger delta has
that delta reduced and the new node is inserted in front of it; otherwise the
new node is appended at the tail. -/
def add_timeout_loop (toId : Nat) (dt : Int) : List TimeoutNode → List TimeoutNode
  | [] => [⟨toId, dt⟩]
  | t :: rest =>
    if dt < t.dticks then ⟨toId, dt⟩ :: ⟨t.id, t.dticks - dt⟩ :: rest
    else t :: add_timeout_loop toId (dt - t.dticks) rest

/-- Model of `z_timeout_q_add_timeout` for a relative (non-`Z_TICK_ABS`,
non-`K_FOREVER`) timeout: the initial delta is
`timeout.ticks + 1 + z_timeout_q_elapsed(api)`; `elapsed` is the hardware
tick count since the last announcement (`0` when the call happens at a tick
boundary outside of an announcement). -/
def z_timeout_q_add_timeout (q : List TimeoutNode) (toId : Nat) (timeoutTicks : Int)
    (elapsed : Int) : List TimeoutNode :=
  add_timeout_loop toId (timeoutTicks + 1 + elapsed) q

/-- Model of `z_timeout_q_remove_timeout` (the body of
`z_timeout_q_abort_timeout` for an active node): the removed node's delta is
added to its successor, then the node is unlinked. -/
def z_timeout_q_abort_timeout (toId : Nat) : List TimeoutNode → List TimeoutNode
  | [] => []
  | t :: rest =>
    if t.id = toId then
      match rest with
      | [] => []
      | n :: rest2 => ⟨n.id, n.dticks + t.dticks⟩ :: rest2
    else t :: z_timeout_q_abort_timeout toId rest

/-- Expiry loop of `z_timeout_q_timeout_announce`: while the head node's
delta is at most the remaining announced ticks, the head is removed and its
callback fires (its id is appended to the fired list), the remaining tick
budget shrinking by the head's delta; the first surviving node has the
leftover budget subtracted from its delta. Returns the fired ids in firing
order together with the final queue. -/
def announce_loop (remaining : Int) : List TimeoutNode → List Nat × List TimeoutNode
  | [] => ([], [])
  | t :: rest =>
    if t.dticks ≤ remaining then
      let r := announce_loop (remaining - t.dticks) rest
      (t.id :: r.1, r.2)
    else ([], ⟨t.id, t.dticks - remaining⟩ :: rest)

/-- Model of `z_timeout_q_timeout_announce` (single-queue, non-SMP path). -/
def z_timeout_q_timeout_announce (q : List TimeoutNode) (ticks : Int) :
    List Nat × List TimeoutNode :=
  announce_loop ticks q

/- ===================================================================== -/
/- Theorems for the timeout queue                                        -/
/- ===================================================================== -/

/-- C2, counterexample. The claim asserts that `add_timeout(to, dt)` followed
by `announce(dt')` with `dt' ≥ dt` invokes `to.fn` exactly once. At
`dt = dt' = 1` (queue initially empty, the node added at a tick boundary so
that `elapsed() = 0`) the node is inserted with delta `dt + 1 = 2 > 1`, so
the announcement fires no callback at all: the claim fails as stated. -/
theorem timeout_announce_at_dt_cex :
    (1 : Int) ≥ 1 ∧
    ((z_timeout_q_timeout_announce (z_timeout_q_add_timeout [] 7 1 0) 1).1.count 7 ≠ 1) := by
  decide

/-- C2, amended. Adding a node to an empty queue with relative delay `dt ≥ 0`
at a tick boundary (`elapsed() = 0`) and then announcing `dt'` ticks invokes
the node's callback exactly once provided `dt' ≥ dt + 1` (the inserted delta
is `dt + 1`); aborting the node before the announcement prevents the
invocation entirely. -/
theorem timeout_add_announce_abort (toId : Nat) (dt dtp : Int)
    (hdt : 0 ≤ dt) (hge : dt + 1 ≤ dtp) :
    (z_timeout_q_timeout_announce (z_timeout_q_add_timeout [] toId dt 0) dtp).1.count toId = 1 ∧
    (z_timeout_q_timeout_announce
        (z_timeout_q_abort_timeout toId (z_timeout_q_add_timeout [] toId dt 0)) dtp).1.count toId
      = 0 := by
  have hq : z_timeout_q_add_timeout [] toId dt 0 = [⟨toId, dt + 1 + 0⟩] := rfl
  constructor
  · rw [hq]
    simp only [z_timeout_q_timeout_announce, announce_loop]
    rw [if_pos (by omega)]
    simp [announce_loop, List.count_cons]
  · rw [hq]
    simp [z_timeout_q_abort_timeout, z_timeout_q_timeout_announce, announce_loop]

/-- C2, witness for `timeout_add_announce_abort` at `toId = 7`, `dt = 2`,
`dtp = 3`. -/
theorem timeout_add_announce_abort_witness :
    (z_timeout_q_timeout_announce (z_timeout_q_add_timeout [] 7 2 0) 3).1.count 7 = 1 ∧
    (z_timeout_q_timeout_announce
        (z_timeout_q_abort_timeout 7 (z_timeout_q_add_timeout [] 7 2 0)) 3).1.count 7 = 0 :=
  timeout_add_announce_abort 7 2 3 (by decide) (by decide)

/- ===================================================================== -/
/- Part 2: frame codec, ieee802154_frame.c (src/unnamed/part_004 copy)   -/
/- ===================================================================== -/

/-- Bit `i` of the machine word `w`. -/
def bitOf (w i : Nat) : Bool := w / 2 ^ i % 2 = 1

/-- Bit field of width `n` starting at bit `i` of the machine word `w`. -/
def bitsOf (w i n : Nat) : Nat := w / 2 ^ i % 2 ^ n

/-- Decoded `struct ieee802154_fcf`: little-endian packed bit layout of the
two frame-control bytes (bit 0 first): frame type (3), security enabled (1),
frame pending (1), AR (1), PAN-id compression (1), reserved (1), sequence
number suppression (1), IE present (1), destination addressing mode (2),
frame version (2), source addressing mode (2). -/
structure Fcf where
  frame_type : Nat
  security_enabled : Bool
  frame_pending : Bool
  ar : Bool
  pan_id_comp : Bool
  reserved : Bool
  seq_num_suppr : Bool
  ie_present : Bool
  dst_addr_mode : Nat
  frame_version : Nat
  src_addr_mode : Nat
deriving DecidableEq, Repr

/-- Decode the frame-control field from its two on-wire bytes (first byte is
least significant). -/
def decode_fcf (b0 b1 : Nat) : Fcf :=
  let w := b0 % 256 + 256 * (b1 % 256)
  { frame_type := bitsOf w 0 3
    security_enabled := bitOf w 3
    frame_pending := bitOf w 4
    ar := bitOf w 5
    pan_id_comp := bitOf w 6
    reserved := bitOf w 7
    seq_num_suppr := bitOf w 8
    ie_present := bitOf w 9
    dst_addr_mode := bitsOf w 10 2
    frame_version := bitsOf w 12 2
    src_addr_mode := bitsOf w 14 2 }

/-- Model of `verify_and_get_has_dst_pan_id` (section 7.2.2.6): `none` is the
`false` return (invalid PAN-id compression), `some b` the `has_dst_pan_id`
out-parameter. Addressing mode `0` is `IEEE802154_ADDR_MODE_NONE`. -/
def verify_and_get_has_dst_pan_id (dst_addr_mode src_addr_mode : Nat) (pan_id_comp : Bool) :
    Option Bool :=
  let has_dst_addr := dst_addr_mode ≠ 0
  let has_src_addr := src_addr_mode ≠ 0
  let both_present := has_src_addr ∧ has_dst_addr
  if ¬both_present ∧ pan_id_comp = true then none
  else some (if both_present then true else decide has_dst_addr)

/-- Model of `verify_and_get_has_src_pan_id` (section 7.2.2.6). -/
def verify_and_get_has_src_pan_id (dst_addr_mode src_addr_mode : Nat) (pan_id_comp : Bool) :
    Option Bool :=
  let has_dst_addr := dst_addr_mode ≠ 0
  let has_src_addr := src_addr_mode ≠ 0
  let both_present := has_src_addr ∧ has_dst_addr
  if ¬both_present ∧ pan_id_comp = true then none
  else some (if both_present then !pan_id_comp else decide has_src_addr)

/-- Version-independent decoded frame control
(`struct ieee802154_frame_control`), as filled in by `parse_fcf_seq`. -/
structure FrameControlM where
  frame_type : Nat
  frame_version : Nat
  has_dst_pan : Bool
  dst_addr_mode : Nat
  has_src_pan : Bool
  src_addr_mode : Nat
  security_enabled : Bool
  frame_pending : Bool
  ack_requested : Bool
  has_seq_number : Bool
  ie_present : Bool
deriving DecidableEq, Repr

/-- Result of `parse_fcf_seq`: the decoded frame control, the captured
sequence byte (meaningful only when `has_seq_number`), the cursor progress in
bytes, and the frame buffer after the in-place frame-pending repair. -/
structure ParsedFcfSeq where
  frame_control : FrameControlM
  sequence : Nat
  progress : Nat
  buf : List Nat
deriving DecidableEq, Repr

/-- In-place repair `fcf->frame_pending = 0`: clear bit 4 of the first
frame-control byte in the packet buffer. -/
def clear_frame_pending_bit : List Nat → List Nat
  | [] => []
  | b0 :: rest => (if b0 / 16 % 2 = 1 then b0 - 16 else b0) :: rest

/-- Continuation of `parse_fcf_seq` after the frame-pending repair: verify
the PAN-id compression bit, verify sequence-number suppression and IE
presence for the frame version, fill the decoded frame control and capture
the sequence byte. `fcf2` is the (possibly repaired) decoded FCF, `buf2` the
(possibly repaired) frame buffer and `rest` the bytes after the FCF. When a
sequence number is present the C code reads the byte following the frame
control without a bounds check: the model supplies `0` for a missing byte
(the caller's `advance_cursor` bound check then discards the parse just like
the C caller does). -/
def parse_fcf_seq_tail (fcf2 : Fcf) (buf2 rest : List Nat) : Option ParsedFcfSeq :=
  match verify_and_get_has_dst_pan_id fcf2.dst_addr_mode fcf2.src_addr_mode fcf2.pan_id_comp,
        verify_and_get_has_src_pan_id fcf2.dst_addr_mode fcf2.src_addr_mode fcf2.pan_id_comp
      with
  | some has_dst_pan_id, some has_src_pan_id =>
    if (fcf2.seq_num_suppr = true ∨ fcf2.ie_present = true) ∧ fcf2.frame_version ≠ 2 then
      none
    else if fcf2.seq_num_suppr = false then
      some ⟨{ frame_type := fcf2.frame_type
              frame_version := fcf2.frame_version
              has_dst_pan := has_dst_pan_id
              dst_addr_mode := fcf2.dst_addr_mode
              has_src_pan := has_src_pan_id
              src_addr_mode := fcf2.src_addr_mode
              security_enabled := fcf2.security_enabled
              frame_pending := fcf2.frame_pending
              ack_requested := fcf2.ar
              has_seq_number := !fcf2.seq_num_suppr
              ie_present := fcf2.ie_present }, rest.headD 0, 3, buf2⟩
    else
      some ⟨{ frame_type := fcf2.frame_type
              frame_version := fcf2.frame_version
              has_dst_pan := has_dst_pan_id
              dst_addr_mode := fcf2.dst_addr_mode
              has_src_pan := has_src_pan_id
              src_addr_mode := fcf2.src_addr_mode
              security_enabled := fcf2.security_enabled
              frame_pending := fcf2.frame_pending
              ack_requested := fcf2.ar
              has_seq_number := !fcf2.seq_num_suppr
              ie_present := fcf2.ie_present }, 0, 2, buf2⟩
  | _, _ => none

/-- Model of `parse_fcf_seq` (part_004 variant, returning a progress count;
`none` is a negative return). Frame type `4+` is reserved, version `3` is
reserved, addressing mode `1` is reserved; type `1` is data, type `0` beacon,
type `3` MAC command; version `2` is `IEEE802154_VERSION_802154` (2015). The
security build option is taken as enabled, so `security_enabled` frames
pass. A MAC command with the frame-pending bit set has the bit repaired in
place before parsing continues in `parse_fcf_seq_tail`. -/
def parse_fcf_seq (buf : List Nat) : Option ParsedFcfSeq :=
  match buf with
  | b0 :: b1 :: rest =>
    if (decode_fcf b0 b1).frame_type ≥ 4 ∨ (decode_fcf b0 b1).frame_version = 3 ∨
       (decode_fcf b0 b1).dst_addr_mode = 1 ∨ (decode_fcf b0 b1).src_addr_mode = 1 then none
    else if (decode_fcf b0 b1).frame_type = 1 ∧ (decode_fcf b0 b1).frame_version ≠ 2 ∧
            (decode_fcf b0 b1).dst_addr_mode = 0 ∧ (decode_fcf b0 b1).src_addr_mode = 0 then
      none
    else if (decode_fcf b0 b1).frame_type = 0 ∧ (decode_fcf b0 b1).frame_version ≠ 2 ∧
            ((decode_fcf b0 b1).dst_addr_mode ≠ 0 ∨ (decode_fcf b0 b1).src_addr_mode = 0 ∨
             (decode_fcf b0 b1).pan_id_comp = true) then
      none
    else if (decode_fcf b0 b1).frame_type = 3 ∧ (decode_fcf b0 b1).frame_pending = true then
      parse_fcf_seq_tail { decode_fcf b0 b1 with frame_pending := false }
        (clear_frame_pending_bit (b0 :: b1 :: rest)) rest
    else
      parse_fcf_seq_tail (decode_fcf b0 b1) (b0 :: b1 :: rest) rest
  | _ => none

/-- Model of `parse_addr` (part_004 variant): returns the consumed length
(`0`, `2`, `4`, `8` or `10` bytes) or `none` on a bounds failure. Mode `0` is
no address, mode `2` short, mode `3` extended; the recorded address is a
pointer into the buffer and is not needed here. -/
def parse_addr (remaining_length : Nat) (mode : Nat) (has_pan_id : Bool) : Option Nat :=
  if mode = 0 then some 0
  else
    let len := (if has_pan_id then 2 else 0) + (if mode = 2 then 2 else 8)
    if len > remaining_length then none else some len

/-- Model of `ieee802154_parse_aux_security_hdr` (part_004 variant): the
auxiliary security header needs at least control field (1 byte) plus frame
counter (4 bytes); only the implicit key-id mode (`0`, bits 3-4 of the
control byte) is accepted, consuming exactly 5 bytes. -/
def ieee802154_parse_aux_security_hdr (bytes : List Nat) (remaining_length : Nat) :
    Option Nat :=
  if 5 > remaining_length then none
  else if bytes.headD 0 / 8 % 4 ≠ 0 then none
  else some 5

/-- Parsed MHR as far as the claims need it: decoded frame control, sequence
byte, MAC payload length and the (possibly repaired) frame buffer. -/
structure MpduM where
  frame_control : FrameControlM
  sequence : Nat
  mac_payload_length : Nat
  buf : List Nat
deriving DecidableEq, Repr

/-- Model of `ieee802154_parse_mhr`: length bounds
(`IEEE802154_MIN_LENGTH = 2`, `IEEE802154_MTU = 125`), `parse_fcf_seq`,
destination and source addresses, the auxiliary security header when
security is enabled, and the IE-present check; the remaining bytes become
the MAC payload. Every `advance_cursor` failure is a `none`. -/
def ieee802154_parse_mhr (bytes : List Nat) : Option MpduM :=
  if bytes.length > 125 ∨ bytes.length < 2 then none
  else
    match parse_fcf_seq bytes with
    | none => none
    | some p =>
      if p.progress > bytes.length then none
      else
        match parse_addr (bytes.length - p.progress) p.frame_control.dst_addr_mode
            p.frame_control.has_dst_pan with
        | none => none
        | some dlen =>
          match parse_addr (bytes.length - p.progress - dlen) p.frame_control.src_addr_mode
              p.frame_control.has_src_pan with
          | none => none
          | some slen =>
            if p.frame_control.security_enabled then
              match ieee802154_parse_aux_security_hdr (p.buf.drop (p.progress + dlen + slen))
                  (bytes.length - p.progress - dlen - slen) with
              | none => none
              | some alen =>
                if p.frame_control.ie_present then none
                else some ⟨p.frame_control, p.sequence,
                           bytes.length - p.progress - dlen - slen - alen, p.buf⟩
            else
              if p.frame_control.ie_present then none
              else some ⟨p.frame_control, p.sequence,
                         bytes.length - p.progress - dlen - slen, p.buf⟩

/- ===================================================================== -/
/- Helper lemmas about the parser                                        -/
/- ===================================================================== -/

/-- Structure of a successful `parse_fcf_seq_tail`: the parsed frame control
keeps the IE-present and frame-pending flags of the decoded FCF it was given
and the returned buffer is the one it was given. -/
theorem parse_fcf_seq_tail_some (fcf2 : Fcf) (buf2 rest : List Nat) (p : ParsedFcfSeq)
    (h : parse_fcf_seq_tail fcf2 buf2 rest = some p) :
    p.frame_control.ie_present = fcf2.ie_present ∧ p.buf = buf2 ∧
    p.frame_control.frame_pending = fcf2.frame_pending := by
  unfold parse_fcf_seq_tail at h
  split at h
  · split at h
    · exact Option.noConfusion h
    · split at h <;> (cases h; exact ⟨rfl, rfl, rfl⟩)
  · exact Option.noConfusion h

/-- Structure of a successful `parse_fcf_seq`: the IE-present flag is the
decoded one, the buffer is repaired exactly when the frame is a MAC command
with the frame-pending bit set, and a MAC command never keeps the
frame-pending bit. -/
theorem parse_fcf_seq_some (b0 b1 : Nat) (rest : List Nat) (p : ParsedFcfSeq)
    (h : parse_fcf_seq (b0 :: b1 :: rest) = some p) :
    p.frame_control.ie_present = (decode_fcf b0 b1).ie_present ∧
    p.buf = (if (decode_fcf b0 b1).frame_type = 3 ∧ (decode_fcf b0 b1).frame_pending = true
             then clear_frame_pending_bit (b0 :: b1 :: rest) else (b0 :: b1 :: rest)) ∧
    ((decode_fcf b0 b1).frame_type = 3 → p.frame_control.frame_pending = false) := by
  simp only [parse_fcf_seq] at h
  split at h
  · exact Option.noConfusion h
  split at h
  · exact Option.noConfusion h
  split at h
  · exact Option.noConfusion h
  split at h
  next hrep =>
    obtain ⟨h1, h2, h3⟩ := parse_fcf_seq_tail_some _ _ _ _ h
    exact ⟨h1, by rw [h2, if_pos hrep], fun _ => h3⟩
  next hrep =>
    obtain ⟨h1, h2, h3⟩ := parse_fcf_seq_tail_some _ _ _ _ h
    refine ⟨h1, by rw [h2, if_neg hrep], fun ht => ?_⟩
    rw [h3]
    by_cases hfp : (decode_fcf b0 b1).frame_pending = true
    · exact absurd ⟨ht, hfp⟩ hrep
    · simpa using hfp

/-- Structure of a successful `ieee802154_parse_mhr`: the result's frame
control and buffer come unchanged from `parse_fcf_seq`. -/
theorem parse_mhr_some (bytes : List Nat) (m : MpduM)
    (h : ieee802154_parse_mhr bytes = some m) :
    ∃ p, parse_fcf_seq bytes = some p ∧
      m.frame_control = p.frame_control ∧ m.buf = p.buf := by
  unfold ieee802154_parse_mhr at h
  split at h
  · exact Option.noConfusion h
  split at h
  case _ => exact Option.noConfusion h
  case _ p hp =>
    refine ⟨p, hp, ?_⟩
    split at h
    · exact Option.noConfusion h
    split at h
    case _ => exact Option.noConfusion h
    case _ dlen hdlen =>
      split at h
      case _ => exact Option.noConfusion h
      case _ slen hslen =>
        split at h
        · split at h
          case _ => exact Option.noConfusion h
          case _ alen halen =>
            split at h
            · exact Option.noConfusion h
            · cases h; exact ⟨rfl, rfl⟩
        · split at h
          · exact Option.noConfusion h
          · cases h; exact ⟨rfl, rfl⟩

/- ===================================================================== -/
/- Theorems for the parser claims                                        -/
/- ===================================================================== -/

/-- C1, counterexample. A version-2015 data frame that passes every other
parse check but has the IE-present bit set (FCF bytes `0x41 0xAA`, then a
sequence byte, destination PAN and short address, compressed short source
address, and an HT2 header termination IE) is rejected by
`ieee802154_parse_mhr`; the identical frame with only the IE-present bit
cleared (`0x41 0xA8`) parses successfully, so the rejection is due to the
IE-present bit alone, refuting the claim that header IEs are parsed. -/
theorem parse_mhr_ie_present_cex :
    (decode_fcf 65 170).ie_present = true ∧
    (decode_fcf 65 170).frame_version = 2 ∧
    ieee802154_parse_mhr [65, 170, 42, 205, 171, 239, 190, 52, 18, 128, 63] = none ∧
    (ieee802154_parse_mhr [65, 168, 42, 205, 171, 239, 190, 52, 18, 128, 63]).isSome = true := by
  decide

/-- C1, amended. `ieee802154_parse_mhr` rejects every frame whose
frame-control IE-present bit is set — header IEs are never parsed by it
(for frame versions other than 2015 the rejection happens in
`parse_fcf_seq`, for version-2015 frames at the explicit IE-present check). -/
theorem parse_mhr_rejects_ie_present (b0 b1 : Nat) (tail : List Nat)
    (hie : (decode_fcf b0 b1).ie_present = true) :
    ieee802154_parse_mhr (b0 :: b1 :: tail) = none := by
  unfold ieee802154_parse_mhr
  rcases hp : parse_fcf_seq (b0 :: b1 :: tail) with _ | p
  · simp [hp]
  have hie2 := (parse_fcf_seq_some b0 b1 tail p hp).1
  rw [hie] at hie2
  simp only [hp]
  split
  · rfl
  split
  · rfl
  rcases h1 : parse_addr ((b0 :: b1 :: tail).length - p.progress)
      p.frame_control.dst_addr_mode p.frame_control.has_dst_pan with _ | dlen
  · rfl
  simp only []
  rcases h2 : parse_addr ((b0 :: b1 :: tail).length - p.progress - dlen)
      p.frame_control.src_addr_mode p.frame_control.has_src_pan with _ | slen
  · rfl
  simp only []
  split
  · rcases h3 : ieee802154_parse_aux_security_hdr
        (p.buf.drop (p.progress + dlen + slen))
        ((b0 :: b1 :: tail).length - p.progress - dlen - slen) with _ | alen
    · rfl
    · simp [hie2]
  · simp [hie2]

/-- C1, witness for `parse_mhr_rejects_ie_present` on the concrete
IE-present frame. -/
theorem parse_mhr_rejects_ie_present_witness :
    ieee802154_parse_mhr [65, 170, 42, 205, 171, 239, 190, 52, 18, 128, 63] = none :=
  parse_mhr_rejects_ie_present 65 170 [42, 205, 171, 239, 190, 52, 18, 128, 63] (by decide)

/-- C6, counterexample. A version-2015 MAC-command frame (FCF bytes
`0x53 0xA8`: frame type 3, frame version 2, frame-pending bit set) has its
frame-pending bit cleared in place by `ieee802154_parse_mhr` (first buffer
byte `0x53 = 83` becomes `0x43 = 67`), refuting the claim that for a
2015-version MAC command the bit is left as received. -/
theorem parse_mhr_frame_pending_2015_cex :
    (decode_fcf 83 168).frame_type = 3 ∧
    (decode_fcf 83 168).frame_version = 2 ∧
    (decode_fcf 83 168).frame_pending = true ∧
    (ieee802154_parse_mhr [83, 168, 42, 205, 171, 239, 190, 52, 18, 4]).map MpduM.buf =
      some [67, 168, 42, 205, 171, 239, 190, 52, 18, 4] := by
  decide

/-- C6, amended. For every frame accepted by `ieee802154_parse_mhr`, the
frame-pending bit is cleared in place exactly when the frame is a MAC
command with the bit set — regardless of the frame version — and the parsed
frame control of a MAC command never carries the frame-pending bit;
non-MAC-command frames leave the buffer untouched. -/
theorem parse_mhr_frame_pending_repair (b0 b1 : Nat) (tail : List Nat)
    (hs : (ieee802154_parse_mhr (b0 :: b1 :: tail)).isSome = true) :
    (ieee802154_parse_mhr (b0 :: b1 :: tail)).map MpduM.buf =
      some (if (decode_fcf b0 b1).frame_type = 3 ∧ (decode_fcf b0 b1).frame_pending = true
            then clear_frame_pending_bit (b0 :: b1 :: tail) else (b0 :: b1 :: tail)) ∧
    ((decode_fcf b0 b1).frame_type = 3 →
      (ieee802154_parse_mhr (b0 :: b1 :: tail)).map (fun m => m.frame_control.frame_pending) =
        some false) := by
  rcases hm : ieee802154_parse_mhr (b0 :: b1 :: tail) with _ | m
  · rw [hm] at hs; exact Bool.noConfusion hs
  obtain ⟨p, hp, hfc, hbuf⟩ := parse_mhr_some (b0 :: b1 :: tail) m hm
  obtain ⟨_, hpbuf, hpfp⟩ := parse_fcf_seq_some b0 b1 tail p hp
  constructor
  · simp only [hm, Option.map_some']
    rw [hbuf, hpbuf]
  · intro h3
    simp only [hm, Option.map_some']
    rw [hfc, hpfp h3]

/-- C6, witness for `parse_mhr_frame_pending_repair` on the concrete
version-2015 MAC command frame. -/
theorem parse_mhr_frame_pending_repair_witness :
    (ieee802154_parse_mhr [83, 168, 42, 205, 171, 239, 190, 52, 18, 4]).map MpduM.buf =
      some (if (decode_fcf 83 168).frame_type = 3 ∧ (decode_fcf 83 168).frame_pending = true
            then clear_frame_pending_bit [83, 168, 42, 205, 171, 239, 190, 52, 18, 4]
            else [83, 168, 42, 205, 171, 239, 190, 52, 18, 4]) ∧
    (ieee802154_parse_mhr [83, 168, 42, 205, 171, 239, 190, 52, 18, 4]).map
        (fun m => m.frame_control.frame_pending) =
      some false :=
  ⟨(parse_mhr_frame_pending_repair 83 168 [42, 205, 171, 239, 190, 52, 18, 4] (by decide)).1,
   (parse_mhr_frame_pending_repair 83 168 [42, 205, 171, 239, 190, 52, 18, 4]
      (by decide)).2 (by decide)⟩

/- ===================================================================== -/
/- Part 3: frame emission and security procedures, ieee802154_frame.c    -/
/- ===================================================================== -/

/-- Destination or source address parameters
(`struct ieee802154_frame_params` address part): length in bytes (2 short /
8 extended) and the short address value in host order (meaningful only when
`len = 2`). -/
structure AddrSpec where
  len : Nat
  short_addr : Nat
deriving DecidableEq, Repr

/-- Output fields of `initialize_generic_frame_fcf`: the frame version, the
AR (ack-request) bit and the two addressing modes written into the FCF. -/
structure GenericFcf where
  frame_version : Nat
  ar : Bool
  dst_addr_mode : Nat
  src_addr_mode : Nat
deriving DecidableEq, Repr

/-- Model of `initialize_generic_frame_fcf`: version is fixed to 2006 (`1`);
the destination is broadcast when it is the short address `0xffff`; the AR
bit is set iff the destination is not broadcast and the context requests
ACKs (section 6.7.4.1); addressing modes follow the parameter lengths. -/
def initialize_generic_frame_fcf (ack_requested : Bool) (dst : AddrSpec) (src_len : Nat) :
    GenericFcf :=
  let is_broadcast : Bool := dst.len == 2 && dst.short_addr == 0xffff
  { frame_version := 1
    ar := !is_broadcast && ack_requested
    dst_addr_mode := if dst.len = 2 then 2 else 3
    src_addr_mode := if src_len = 2 then 2 else 3 }

/-- Security sub-context (`struct ieee802154_security_ctx`), reduced to the
fields the outgoing procedure reads and writes: the security level, the
key-id mode (`0` is implicit) and the 32-bit frame counter. -/
structure Ieee802154SecCtx where
  level : Nat
  key_mode : Nat
  frame_counter : Nat
deriving DecidableEq, Repr

/-- Result of `outgoing_security_procedure`: whether the procedure succeeded
(a non-NULL return), the security context after the call, and the
`security_enabled` FCF bit after the call. -/
structure OutgoingSecurityResult where
  ok : Bool
  sec_ctx : Ieee802154SecCtx
  security_enabled : Bool
deriving DecidableEq, Repr

/-- Model of `outgoing_security_procedure` (section 9.2.2 steps a-g):
authtag length `0` is a no-op success; level `0` (none) and `4` (reserved)
fail; then the FCF security-enabled bit is flipped on; frame counter
`0xffffffff` fails (COUNTER_ERROR); a non-implicit key mode makes
`generate_aux_security_hdr` return NULL; `encrypt_ok` stands for the
`ieee802154_encrypt_auth` collaborator outcome; on success the context frame
counter is incremented (32-bit). `frame_counter` is the caller's snapshot of
the context frame counter passed as argument. -/
def outgoing_security_procedure (sec : Ieee802154SecCtx) (authtag_len : Nat)
    (frame_counter : Nat) (security_enabled0 : Bool) (encrypt_ok : Bool) :
    OutgoingSecurityResult :=
  if authtag_len = 0 then ⟨true, sec, security_enabled0⟩
  else if sec.level = 0 then ⟨false, sec, security_enabled0⟩
  else if sec.level = 4 then ⟨false, sec, security_enabled0⟩
  else if frame_counter = 0xffffffff then ⟨false, sec, true⟩
  else if sec.key_mode ≠ 0 then ⟨false, sec, true⟩
  else if encrypt_ok = false then ⟨false, sec, true⟩
  else ⟨true, { sec with frame_counter := (sec.frame_counter + 1) % 2 ^ 32 }, true⟩

/-- Authentication tag length table `level_2_authtag_len` indexed by the
MIC part of the security level. -/
def level_2_authtag_len (i : Nat) : Nat := [0, 4, 8, 16].getD i 0

/-- Auxiliary security header as the incoming procedure reads it
(`mhr->aux_sec`): security level field and frame counter. -/
structure AuxSecHdrM where
  security_level : Nat
  frame_counter : Nat
deriving DecidableEq, Repr

/-- Model of `ieee802154_incoming_security_procedure` (sections 9.2.4 and
9.2.5): unsecured frames are accepted; a secured frame of frame version `0`
(2003) is rejected as UNSUPPORTED_LEGACY; interface levels `0` and `4` are
rejected; a missing auxiliary header or a level mismatch is rejected; the
remaining work is delegated to the `ieee802154_decrypt_auth` collaborator,
modelled by the `decrypt_ok` oracle applied to the computed authtag length
and the received frame counter. -/
def ieee802154_incoming_security_procedure (security_enabled : Bool) (frame_version : Nat)
    (ctx_level : Nat) (aux_sec : Option AuxSecHdrM) (decrypt_ok : Nat → Nat → Bool) : Bool :=
  if security_enabled = false then true
  else if frame_version = 0 then false
  else if ctx_level = 0 then false
  else if ctx_level = 4 then false
  else
    match aux_sec with
    | none => false
    | some aux =>
      if aux.security_level ≠ ctx_level then false
      else
        decrypt_ok (level_2_authtag_len (if ctx_level > 4 then ctx_level - 4 else ctx_level))
          aux.frame_counter

/- ===================================================================== -/
/- Theorems for the emission and security procedures                     -/
/- ===================================================================== -/

/-- C9. The AR (ack-request) bit emitted by `initialize_generic_frame_fcf`
is set if and only if the destination is not the short broadcast address
`0xffff` and the context requests ACKs; in particular a broadcast
destination forces the bit off regardless of `ack_requested`. -/
theorem data_frame_ack_request_bit (ack_requested : Bool) (dst : AddrSpec) (src_len : Nat) :
    ((initialize_generic_frame_fcf ack_requested dst src_len).ar = true ↔
      (¬(dst.len = 2 ∧ dst.short_addr = 0xffff) ∧ ack_requested = true)) ∧
    (dst.len = 2 ∧ dst.short_addr = 0xffff →
      (initialize_generic_frame_fcf ack_requested dst src_len).ar = false) := by
  constructor
  · simp [initialize_generic_frame_fcf]
    tauto
  · intro h
    simp [initialize_generic_frame_fcf, h.1, h.2]

/-- C9, witness for `data_frame_ack_request_bit`: a broadcast destination
with `ack_requested = true` yields AR off, a unicast short destination with
`ack_requested = true` yields AR on. -/
theorem data_frame_ack_request_bit_witness :
    (initialize_generic_frame_fcf true ⟨2, 0xffff⟩ 2).ar = false ∧
    (initialize_generic_frame_fcf true ⟨2, 0xbeef⟩ 2).ar = true :=
  ⟨(data_frame_ack_request_bit true ⟨2, 0xffff⟩ 2).2 ⟨rfl, rfl⟩,
   (data_frame_ack_request_bit true ⟨2, 0xbeef⟩ 2).1.mpr ⟨by decide, rfl⟩⟩

/-- C5. For an invocation of `outgoing_security_procedure` with a non-zero
authtag length and the frame counter snapshot taken from the context: when
the counter is exhausted (`0xffffffff`) the procedure fails and the context
frame counter is unchanged; whenever the procedure succeeds the context
frame counter is incremented by exactly one. -/
theorem outgoing_security_frame_counter (sec : Ieee802154SecCtx) (authtag_len : Nat)
    (frame_counter : Nat) (se0 encrypt_ok : Bool)
    (hat : authtag_len ≠ 0) (hsnap : frame_counter = sec.frame_counter)
    (hlt : sec.frame_counter < 2 ^ 32) :
    (frame_counter = 0xffffffff →
      (outgoing_security_procedure sec authtag_len frame_counter se0 encrypt_ok).ok = false ∧
      (outgoing_security_procedure sec authtag_len frame_counter se0
          encrypt_ok).sec_ctx.frame_counter = sec.frame_counter) ∧
    ((outgoing_security_procedure sec authtag_len frame_counter se0 encrypt_ok).ok = true →
      (outgoing_security_procedure sec authtag_len frame_counter se0
          encrypt_ok).sec_ctx.frame_counter = sec.frame_counter + 1) := by
  constructor
  · intro hfc
    unfold outgoing_security_procedure
    rw [if_neg hat]
    by_cases h0 : sec.level = 0
    · rw [if_pos h0]; exact ⟨rfl, rfl⟩
    rw [if_neg h0]
    by_cases h4 : sec.level = 4
    · rw [if_pos h4]; exact ⟨rfl, rfl⟩
    rw [if_neg h4, if_pos hfc]
    exact ⟨rfl, rfl⟩
  · intro hok
    unfold outgoing_security_procedure at hok ⊢
    rw [if_neg hat] at hok ⊢
    by_cases h0 : sec.level = 0
    · rw [if_pos h0] at hok; exact Bool.noConfusion hok
    rw [if_neg h0] at hok ⊢
    by_cases h4 : sec.level = 4
    · rw [if_pos h4] at hok; exact Bool.noConfusion hok
    rw [if_neg h4] at hok ⊢
    by_cases hfc2 : frame_counter = 0xffffffff
    · rw [if_pos hfc2] at hok; exact Bool.noConfusion hok
    rw [if_neg hfc2] at hok ⊢
    by_cases hkm : sec.key_mode ≠ 0
    · rw [if_pos hkm] at hok; exact Bool.noConfusion hok
    rw [if_neg hkm] at hok ⊢
    by_cases henc : encrypt_ok = false
    · rw [if_pos henc] at hok; exact Bool.noConfusion hok
    rw [if_neg henc]
    have hne : sec.frame_counter + 1 < 4294967296 := by
      have h32 : (2 : Nat) ^ 32 = 4294967296 := by norm_num
      omega
    simp [Nat.mod_eq_of_lt hne]

/-- C5, witness for `outgoing_security_frame_counter` at two concrete
contexts (level 5, implicit key mode, authtag length 4): an exhausted frame
counter fails and stays `0xffffffff`, a successful run advances counter 7
to 8. -/
theorem outgoing_security_frame_counter_witness :
    (outgoing_security_procedure ⟨5, 0, 0xffffffff⟩ 4 0xffffffff false true).ok = false ∧
    (outgoing_security_procedure ⟨5, 0, 0xffffffff⟩ 4 0xffffffff false
        true).sec_ctx.frame_counter = 0xffffffff ∧
    (outgoing_security_procedure ⟨5, 0, 7⟩ 4 7 false true).sec_ctx.frame_counter = 7 + 1 :=
  ⟨((outgoing_security_frame_counter ⟨5, 0, 0xffffffff⟩ 4 0xffffffff false true (by decide)
      rfl (by norm_num)).1 rfl).1,
   ((outgoing_security_frame_counter ⟨5, 0, 0xffffffff⟩ 4 0xffffffff false true (by decide)
      rfl (by norm_num)).1 rfl).2,
   (outgoing_security_frame_counter ⟨5, 0, 7⟩ 4 7 false true (by decide) rfl
      (by norm_num)).2 (by decide)⟩

/-- C4, counterexample. A secured frame of frame version `1` (2006) with an
auxiliary header matching the interface level `5` is not rejected by
`ieee802154_incoming_security_procedure`: with a succeeding decryption it is
accepted, refuting the claim that all pre-2015 (2003 and 2006) secured
frames are rejected before decryption. -/
theorem incoming_security_2006_accepted_cex :
    ieee802154_incoming_security_procedure true 1 5 (some ⟨5, 0⟩) (fun _ _ => true) = true := by
  decide

/-- C4, amended. `ieee802154_incoming_security_procedure` rejects a secured
frame whose frame version is `0` (2003) before any decryption is attempted
(the result is `false` for every decryption oracle); version `1` (2006)
secured frames are not rejected by the version check (see the
counterexample). -/
theorem incoming_security_rejects_2003 (ctx_level : Nat) (aux_sec : Option AuxSecHdrM)
    (decrypt_ok : Nat → Nat → Bool) (fv : Nat) (hfv : fv = 0) :
    ieee802154_incoming_security_procedure true fv ctx_level aux_sec decrypt_ok = false := by
  subst hfv
  rfl

/-- C4, witness for `incoming_security_rejects_2003` on a concrete
version-2003 secured frame with an always-succeeding decryption oracle. -/
theorem incoming_security_rejects_2003_witness :
    ieee802154_incoming_security_procedure true 0 5 (some ⟨5, 0⟩) (fun _ _ => true) = false :=
  incoming_security_rejects_2003 5 (some ⟨5, 0⟩) (fun _ _ => true) 0 rfl

/- ===================================================================== -/
/- Part 4: CCM* nonce derivation, ieee802154_security.c (prepare_aead)   -/
/- ===================================================================== -/

/-- Model of `sys_put_be16`: write the 16-bit value big-endian at `off`. -/
def sys_put_be16 (v : Nat) (buf : List Nat) (off : Nat) : List Nat :=
  (buf.set off (v % 2 ^ 16 / 2 ^ 8)).set (off + 1) (v % 2 ^ 8)

/-- Model of `sys_put_be32`: write the 32-bit value big-endian at `off`. -/
def sys_put_be32 (v : Nat) (buf : List Nat) (off : Nat) : List Nat :=
  ((((buf.set off (v % 2 ^ 32 / 2 ^ 24)).set (off + 1) (v / 2 ^ 16 % 2 ^ 8)).set
      (off + 2) (v / 2 ^ 8 % 2 ^ 8)).set (off + 3) (v % 2 ^ 8))

/-- Byte-wise `memcpy` of `src` into `buf` starting at `off`. -/
def write_bytes (buf : List Nat) (off : Nat) : List Nat → List Nat
  | [] => buf
  | b :: rest => write_bytes (buf.set off b) (off + 1) rest

/-- Source address as `prepare_aead` reads it: a short address as its two
on-wire little-endian bytes, an extended address as its eight on-wire bytes,
or no address (addressing mode none/reserved). -/
inductive SrcAddrM where
  | short (b0 b1 : Nat)
  | extended (bytes : List Nat)
  | noAddr
deriving DecidableEq, Repr

/-- Nonce-derivation part of `prepare_aead`. In TSCH mode (section 9.3.3.2)
a short source yields the IEEE CID `0xba 0x55 0xec`, a zero byte, the PAN id
big-endian and the short address big-endian, followed by the most
significant ASN byte and the low 32 ASN bits big-endian; an extended source
copies its 8 bytes instead; any other mode fails. Outside TSCH mode
(section 9.3.3.1) only an extended source is supported and the trailer is
the 32-bit frame counter big-endian followed by the security level byte.
The `level` argument is the (possibly beacon-downgraded) security level; it
is written into the nonce only in the non-TSCH branch. `nonce` is the
caller's uninitialised 13-byte nonce buffer. -/
def prepare_aead_nonce (tsch_mode : Bool) (level : Nat) (pan_id : Nat) (src : SrcAddrM)
    (frame_counter_or_asn : Nat) (nonce : List Nat) : Option (List Nat) :=
  if tsch_mode then
    match src with
    | .short b0 b1 =>
      some (sys_put_be32 frame_counter_or_asn
        ((sys_put_be16 (b0 % 2 ^ 8 + 2 ^ 8 * (b1 % 2 ^ 8))
            (sys_put_be16 pan_id ((((nonce.set 0 0xba).set 1 0x55).set 2 0xec).set 3 0x00) 4)
            6).set 8 (frame_counter_or_asn / 2 ^ 32 % 2 ^ 8))
        9)
    | .extended bytes =>
      some (sys_put_be32 frame_counter_or_asn
        ((write_bytes nonce 0 (bytes.take 8)).set 8 (frame_counter_or_asn / 2 ^ 32 % 2 ^ 8))
        9)
    | .noAddr => none
  else
    match src with
    | .extended bytes =>
      some ((sys_put_be32 frame_counter_or_asn (write_bytes nonce 0 (bytes.take 8)) 8).set
        12 level)
    | _ => none

/-- Big-endian byte decomposition of a 16-bit value, as the specification
describes the PAN-id and short-address nonce fields. -/
def specBe16 (v : Nat) : List Nat := [v / 2 ^ 8, v % 2 ^ 8]

/-- Big-endian byte decomposition of a 40-bit value, as the specification
describes the ASN nonce trailer. -/
def specBe40 (v : Nat) : List Nat :=
  [v / 2 ^ 32, v / 2 ^ 24 % 2 ^ 8, v / 2 ^ 16 % 2 ^ 8, v / 2 ^ 8 % 2 ^ 8, v % 2 ^ 8]

/-- C3. In TSCH mode with a short source address (on-wire bytes `a0 a1`,
decoded value `a0 + 256 * a1`), the 13-byte CCM* nonce is exactly the IEEE
CID `0xba 0x55 0xec`, one zero byte, the PAN id big-endian, the short source
address big-endian, and the 40-bit ASN big-endian — for every security
level, so the level byte is not part of the TSCH nonce. -/
theorem tsch_short_src_nonce (level pan_id a0 a1 asn : Nat)
    (n0 n1 n2 n3 n4 n5 n6 n7 n8 n9 n10 n11 n12 : Nat)
    (hpan : pan_id < 2 ^ 16) (ha0 : a0 < 2 ^ 8) (ha1 : a1 < 2 ^ 8) (hasn : asn < 2 ^ 40) :
    prepare_aead_nonce true level pan_id (.short a0 a1) asn
        [n0, n1, n2, n3, n4, n5, n6, n7, n8, n9, n10, n11, n12] =
      some ([0xba, 0x55, 0xec, 0x00] ++ specBe16 pan_id ++ specBe16 (a0 + 2 ^ 8 * a1) ++
        specBe40 asn) := by
  simp only [prepare_aead_nonce, sys_put_be16, sys_put_be32, specBe16, specBe40, List.set,
    List.append_assoc, List.cons_append, List.nil_append, Option.some.injEq, List.cons.injEq,
    if_pos]
  and_intros <;> first | trivial | omega

/-- C3, witness for `tsch_short_src_nonce` at PAN id `0xabcd`, short address
bytes `0x34 0x12` (value `0x1234`), ASN `0x0102030405` and level 5. -/
theorem tsch_short_src_nonce_witness :
    prepare_aead_nonce true 5 0xabcd (.short 0x34 0x12) 0x0102030405
        [0, 0, 0, 0, 0, 0, 0, 0, 0, 0, 0, 0, 0] =
      some ([0xba, 0x55, 0xec, 0x00] ++ specBe16 0xabcd ++ specBe16 (0x34 + 2 ^ 8 * 0x12) ++
        specBe40 0x0102030405) :=
  tsch_short_src_nonce 5 0xabcd 0x34 0x12 0x0102030405 0 0 0 0 0 0 0 0 0 0 0 0 0
    (by norm_num) (by norm_num) (by norm_num) (by norm_num)

/- ===================================================================== -/
/- Part 5: TSCH link selector, src/unnamed/part_001                      -/
/- ===================================================================== -/

/-- TSCH link (`struct ieee802154_tsch_link`), reduced to the fields the
selector reads. The node link-layer address is its byte list. -/
structure TschLink where
  handle : Nat
  slotframe_handle : Nat
  timeslot : Nat
  channel_offset : Nat
  node_addr : List Nat
  tx : Bool
  rx : Bool
  timekeeping : Bool
deriving DecidableEq, Repr

/-- TSCH slotframe (`struct ieee802154_tsch_slotframe`): handle, size in
timeslots and its link table in ascending (timeslot, handle) order. -/
structure TschSlotframe where
  handle : Nat
  size : Nat
  links : List TschLink
deriving DecidableEq, Repr

/-- Slice of the interface context read by the link selector: the slotframe
table, the 40-bit ASN (stored in a `uint64_t`) and the timeslot template
length in microseconds. -/
structure TschScheduleCtx where
  slotframes : List TschSlotframe
  tsch_asn : Nat
  timeslot_length_us : Nat
deriving DecidableEq, Repr

/-- Model of `default_tsch_link_comparator`. `qs` maps a neighbor address to
its TX queue depth (`tx_queue_size` of the neighbor data, `0` for an unknown
neighbor). Returns the preferred of the two links. -/
def default_tsch_link_comparator (qs : List Nat → Nat) (a b : TschLink) : TschLink :=
  if a.tx = b.tx then
    if a.slotframe_handle ≠ b.slotframe_handle then
      if a.slotframe_handle < b.slotframe_handle then a else b
    else if a.tx = false ∨ a.node_addr = b.node_addr then
      if a.handle < b.handle then a else b
    else if qs a.node_addr = qs b.node_addr then
      if a.handle < b.handle then a else b
    else if qs a.node_addr > qs b.node_addr then a else b
  else if a.tx then a else b

/-- Loop state of `ieee802154_tsch_schedule_get_next_active_link`: the
current best link, the backup link and the timeslot distance to the current
best link (initially `1`). -/
structure LinkSelState where
  curr_best : Option TschLink
  curr_backup : Option TschLink
  time_to_curr_best : Nat
deriving DecidableEq, Repr

/-- Inner loop body of the link selector for one link of slotframe `sf` when
the current timeslot inside `sf` is `timeslot`: the distance to the link's
timeslot is computed modulo the slotframe size (a `uint16_t`), a strictly
closer link replaces the best link and clears the backup, an equally distant
link is ranked by `default_tsch_link_comparator` and the loser may become
the backup if it is an RX link of lower slotframe handle. -/
def link_sel_step (qs : List Nat → Nat) (sf : TschSlotframe) (timeslot : Nat)
    (st : LinkSelState) (link : TschLink) : LinkSelState :=
  let time_to_timeslot :=
    (if link.timeslot > timeslot then link.timeslot - timeslot
     else sf.size + link.timeslot - timeslot) % 2 ^ 16
  if st.curr_best = none ∨ time_to_timeslot < st.time_to_curr_best then
    { curr_best := some link, curr_backup := none, time_to_curr_best := time_to_timeslot }
  else if time_to_timeslot = st.time_to_curr_best then
    match st.curr_best with
    | none => st
    | some cb =>
      if default_tsch_link_comparator qs cb link = link then
        { curr_best := some link
          curr_backup :=
            if cb.rx = true ∧ (st.curr_backup = none ∨
                ∀ bu ∈ st.curr_backup, cb.slotframe_handle < bu.slotframe_handle) then
              some cb
            else st.curr_backup
          time_to_curr_best := st.time_to_curr_best }
      else
        { curr_best := some cb
          curr_backup :=
            if link.rx = true ∧ (st.curr_backup = none ∨
                ∀ bu ∈ st.curr_backup, sf.handle < bu.slotframe_handle) then
              some link
            else st.curr_backup
          time_to_curr_best := st.time_to_curr_best }
  else st

/-- Per-slotframe loop of the link selector: the current timeslot inside the
slotframe is `ASN mod size`, then every link of the slotframe is visited. -/
def slotframe_step (qs : List Nat → Nat) (asn : Nat) (st : LinkSelState)
    (sf : TschSlotframe) : LinkSelState :=
  sf.links.foldl (link_sel_step qs sf (asn % sf.size)) st

/-- Result of `ieee802154_tsch_schedule_get_next_active_link`: the primary
link, the backup link, the context ASN after the call and the reported
next-active-slot offset in nanoseconds. -/
structure NextActiveLinkResult where
  link : Option TschLink
  backup_link : Option TschLink
  tsch_asn : Nat
  next_active_slot_offset : Nat
deriving DecidableEq, Repr

/-- Model of `ieee802154_tsch_schedule_get_next_active_link`. When the
caller passes a non-NULL `next_active_slot_offset` (`want_offset`), the
context ASN is advanced by the found timeslot distance (`uint64_t` addition,
with no modulo-`2 ^ 40` wrap) and the offset is
`distance × timeslot length × 1000` nanoseconds. -/
def ieee802154_tsch_schedule_get_next_active_link (qs : List Nat → Nat)
    (ctx : TschScheduleCtx) (want_offset : Bool) : NextActiveLinkResult :=
  let st := ctx.slotframes.foldl (slotframe_step qs ctx.tsch_asn) ⟨none, none, 1⟩
  if want_offset then
    { link := st.curr_best
      backup_link := st.curr_backup
      tsch_asn := (ctx.tsch_asn + st.time_to_curr_best) % 2 ^ 64
      next_active_slot_offset := st.time_to_curr_best * ctx.timeslot_length_us * 1000 }
  else
    { link := st.curr_best
      backup_link := st.curr_backup
      tsch_asn := ctx.tsch_asn
      next_active_slot_offset := 0 }

/- ===================================================================== -/
/- Theorems for the link selector                                        -/
/- ===================================================================== -/

/-- C7, failing input. Starting from the largest valid ASN `2 ^ 40 - 1`
(empty slotframe table, offset requested), the selector advances the context
ASN to `2 ^ 40`, which is outside the 40-bit ASN range: the code performs no
modulo-`2 ^ 40` wrap, and its own assertion
`tsch_asn % IEEE802154_TSCH_MAX_ASN == tsch_asn` (with
`IEEE802154_TSCH_MAX_ASN = 0xffffffffff`) is violated by the new value. -/
theorem tsch_asn_overflows_at_wrap :
    (ieee802154_tsch_schedule_get_next_active_link (fun _ => 0)
        ⟨[], 2 ^ 40 - 1, 10000⟩ true).tsch_asn = 2 ^ 40 ∧
    ¬((ieee802154_tsch_schedule_get_next_active_link (fun _ => 0)
        ⟨[], 2 ^ 40 - 1, 10000⟩ true).tsch_asn ≤ 2 ^ 40 - 1) ∧
    ¬((ieee802154_tsch_schedule_get_next_active_link (fun _ => 0)
          ⟨[], 2 ^ 40 - 1, 10000⟩ true).tsch_asn % 0xffffffffff =
      (ieee802154_tsch_schedule_get_next_active_link (fun _ => 0)
          ⟨[], 2 ^ 40 - 1, 10000⟩ true).tsch_asn) := by
  decide

/-- C10. When no slotframe contains any link (in particular when the
slotframe table is empty), the selector returns no primary and no backup
link, yet with a non-NULL offset pointer it still advances the context ASN
by exactly one and reports an offset of exactly one timeslot length in
nanoseconds. -/
theorem empty_schedule_advances_asn (qs : List Nat → Nat) (ctx : TschScheduleCtx)
    (hempty : ∀ sf ∈ ctx.slotframes, sf.links = []) (hasn : ctx.tsch_asn < 2 ^ 40) :
    (ieee802154_tsch_schedule_get_next_active_link qs ctx true).link = none ∧
    (ieee802154_tsch_schedule_get_next_active_link qs ctx true).backup_link = none ∧
    (ieee802154_tsch_schedule_get_next_active_link qs ctx true).tsch_asn =
      ctx.tsch_asn + 1 ∧
    (ieee802154_tsch_schedule_get_next_active_link qs ctx true).next_active_slot_offset =
      ctx.timeslot_length_us * 1000 := by
  have hfold : ∀ (sfs : List TschSlotframe), (∀ sf ∈ sfs, sf.links = []) →
      ∀ (st : LinkSelState), sfs.foldl (slotframe_step qs ctx.tsch_asn) st = st := by
    intro sfs
    induction sfs with
    | nil => intro _ st; rfl
    | cons sf rest ih =>
      intro hall st
      have hsf : sf.links = [] := hall sf (List.mem_cons_self sf rest)
      have hstep : slotframe_step qs ctx.tsch_asn st sf = st := by
        unfold slotframe_step
        rw [hsf]
        rfl
      simp only [List.foldl_cons, hstep]
      exact ih (fun s hs => hall s (List.mem_cons_of_mem sf hs)) st
  have hmod : (ctx.tsch_asn + 1) % 2 ^ 64 = ctx.tsch_asn + 1 := by
    have h40 : (2 : Nat) ^ 40 = 1099511627776 := by norm_num
    have h64 : (2 : Nat) ^ 64 = 18446744073709551616 := by norm_num
    rw [h64]
    omega
  unfold ieee802154_tsch_schedule_get_next_active_link
  rw [hfold ctx.slotframes hempty ⟨none, none, 1⟩]
  rw [if_pos rfl]
  exact ⟨rfl, rfl, hmod, by simp⟩

/-- C10, witness for `empty_schedule_advances_asn` on an empty slotframe
table at ASN 5 with a 10000 µs timeslot. -/
theorem empty_schedule_advances_asn_witness :
    (ieee802154_tsch_schedule_get_next_active_link (fun _ => 0)
        ⟨[], 5, 10000⟩ true).link = none ∧
    (ieee802154_tsch_schedule_get_next_active_link (fun _ => 0)
        ⟨[], 5, 10000⟩ true).backup_link = none ∧
    (ieee802154_tsch_schedule_get_next_active_link (fun _ => 0)
        ⟨[], 5, 10000⟩ true).tsch_asn = 5 + 1 ∧
    (ieee802154_tsch_schedule_get_next_active_link (fun _ => 0)
        ⟨[], 5, 10000⟩ true).next_active_slot_offset = 10000 * 1000 :=
  empty_schedule_advances_asn (fun _ => 0) ⟨[], 5, 10000⟩ (by intro sf h; cases h)
    (by norm_num)

/- ===================================================================== -/
/- Part 6: TSCH RX handler, src/unnamed/part_003                         -/
/- ===================================================================== -/

/-- Verdict returned to the L2 RX path (`enum net_verdict`). -/
inductive NetVerdict where
  | NET_CONTINUE
  | NET_DROP
deriving DecidableEq, Repr

/-- Modelled from the spec: the platform utility macro `DIV_ROUND_CLOSEST`
(its header is not part of the tree), computing the round-to-nearest
quotient with C truncating division, ties away from zero; here specialised
to a positive divisor as `ieee802154_tsch_handle_rx` divides by
`NSEC_PER_USEC = 1000`. -/
def div_round_closest (n d : Int) : Int :=
  if n < 0 then Int.div (n - Int.div d 2) d else Int.div (n + Int.div d 2) d

/-- Truncation of a 64-bit signed value to `int16_t`, as the assignment to
`*time_correction_us` performs. -/
def wrap_int16 (v : Int) : Int := (v + 2 ^ 15) % 2 ^ 16 - 2 ^ 15

/-- Slice of `tsch_slot_context` read by `ieee802154_tsch_handle_rx`: the
currently active link (none once TX/RX finished) and the programmed TX/RX
network time in nanoseconds (`0` when no RX window was programmed). -/
structure TschSlotCtxM where
  current_link : Option TschLink
  programmed_tx_rx_time : Int
deriving DecidableEq, Repr

/-- Guard of `ieee802154_tsch_handle_rx`: an RX link is currently active
when a current link exists, it is an RX link, and a TX/RX time was
programmed for the slot. -/
def rx_link_active (slot : TschSlotCtxM) : Bool :=
  match slot.current_link with
  | none => false
  | some link => link.rx && slot.programmed_tx_rx_time != 0

/-- Model of `ieee802154_tsch_handle_rx`: drop with zero time correction
when no RX link is active or the received link-layer source address differs
from the active link's `node_addr`; otherwise return CONTINUE with the time
correction `DIV_ROUND_CLOSEST(programmed_tx_rx_time - pkt_timestamp_ns,
NSEC_PER_USEC)` truncated to `int16_t`. -/
def ieee802154_tsch_handle_rx (slot : TschSlotCtxM) (rx_ll_addr : List Nat)
    (pkt_timestamp_ns : Int) : NetVerdict × Int :=
  match slot.current_link with
  | none => (.NET_DROP, 0)
  | some link =>
    if link.rx = false ∨ slot.programmed_tx_rx_time = 0 then (.NET_DROP, 0)
    else if link.node_addr ≠ rx_ll_addr then (.NET_DROP, 0)
    else (.NET_CONTINUE,
      wrap_int16 (div_round_closest (slot.programmed_tx_rx_time - pkt_timestamp_ns) 1000))

/- ===================================================================== -/
/- Theorems for the RX handler                                           -/
/- ===================================================================== -/

/-- Reading the active-RX guard through a known current link. -/
theorem rx_link_active_some (slot : TschSlotCtxM) (link : TschLink)
    (hcl : slot.current_link = some link) (h : rx_link_active slot = true) :
    link.rx = true ∧ slot.programmed_tx_rx_time ≠ 0 := by
  unfold rx_link_active at h
  rw [hcl] at h
  simpa using h

/-- C8. `ieee802154_tsch_handle_rx` drops (with zero correction) whenever no
RX link is active or the received source address differs from the active
link's node address; otherwise it continues with the time correction
`round_to_nearest_us(programmed_tx_rx_time - pkt_ts_ns)` (stated for
corrections representable in `int16_t`, as in the claim's ±1 µs example). -/
theorem tsch_handle_rx_verdicts (slot : TschSlotCtxM) (rx_ll_addr : List Nat)
    (pkt_ts : Int) :
    (rx_link_active slot = false →
      ieee802154_tsch_handle_rx slot rx_ll_addr pkt_ts = (.NET_DROP, 0)) ∧
    (∀ link, slot.current_link = some link → rx_link_active slot = true →
      link.node_addr ≠ rx_ll_addr →
      ieee802154_tsch_handle_rx slot rx_ll_addr pkt_ts = (.NET_DROP, 0)) ∧
    (∀ link, slot.current_link = some link → rx_link_active slot = true →
      link.node_addr = rx_ll_addr →
      -(2 ^ 15) ≤ div_round_closest (slot.programmed_tx_rx_time - pkt_ts) 1000 →
      div_round_closest (slot.programmed_tx_rx_time - pkt_ts) 1000 < 2 ^ 15 →
      ieee802154_tsch_handle_rx slot rx_ll_addr pkt_ts =
        (.NET_CONTINUE, div_round_closest (slot.programmed_tx_rx_time - pkt_ts) 1000)) := by
  refine ⟨?_, ?_, ?_⟩
  · intro hinact
    rcases hcl : slot.current_link with _ | link
    · simp [ieee802154_tsch_handle_rx, hcl]
    · simp only [rx_link_active, hcl] at hinact
      have hnot : ¬(link.rx = true ∧ slot.programmed_tx_rx_time ≠ 0) := by
        intro hand
        rw [hand.1] at hinact
        simp [hand.2] at hinact
      simp only [ieee802154_tsch_handle_rx, hcl]
      by_cases hr : link.rx = false
      · rw [if_pos (Or.inl hr)]
      · have h2 : slot.programmed_tx_rx_time = 0 := by
          by_contra h2
          exact hnot ⟨by simpa using hr, h2⟩
        rw [if_pos (Or.inr h2)]
  · intro link hcl hact hne
    obtain ⟨hrx, hprog⟩ := rx_link_active_some slot link hcl hact
    simp only [ieee802154_tsch_handle_rx, hcl]
    rw [if_neg (by simp [hrx, hprog]), if_pos hne]
  · intro link hcl hact heq hlo hhi
    obtain ⟨hrx, hprog⟩ := rx_link_active_some slot link hcl hact
    simp only [ieee802154_tsch_handle_rx, hcl]
    rw [if_neg (by simp [hrx, hprog]), if_neg (fun hne => hne heq)]
    have hw : wrap_int16 (div_round_closest (slot.programmed_tx_rx_time - pkt_ts) 1000) =
        div_round_closest (slot.programmed_tx_rx_time - pkt_ts) 1000 := by
      unfold wrap_int16
      rw [Int.emod_eq_of_lt (by omega) (by omega)]
      omega
    rw [hw]

/-- Concrete RX timekeeping link for neighbor address `[1, 2]` used by the
C8 witness. -/
def rx_example_link : TschLink := ⟨9, 0, 0, 0, [1, 2], false, true, true⟩

/-- C8, witness for `tsch_handle_rx_verdicts` on the spec's example: with no
programmed TX/RX time the frame is dropped; with an active RX link a frame
from the wrong source `[3, 4]` is dropped; the matching frame with
programmed time `1000000` ns and packet timestamp `999400` ns yields
CONTINUE with a `+1` µs time correction. -/
theorem tsch_handle_rx_verdicts_witness :
    ieee802154_tsch_handle_rx ⟨some rx_example_link, 0⟩ [1, 2] 999400 = (.NET_DROP, 0) ∧
    ieee802154_tsch_handle_rx ⟨some rx_example_link, 1000000⟩ [3, 4] 999400 =
      (.NET_DROP, 0) ∧
    ieee802154_tsch_handle_rx ⟨some rx_example_link, 1000000⟩ [1, 2] 999400 =
      (.NET_CONTINUE, 1) :=
  ⟨(tsch_handle_rx_verdicts ⟨some rx_example_link, 0⟩ [1, 2] 999400).1 (by decide),
   (tsch_handle_rx_verdicts ⟨some rx_example_link, 1000000⟩ [3, 4] 999400).2.1
      rx_example_link rfl (by decide) (by decide),
   by
     have h := (tsch_handle_rx_verdicts ⟨some rx_example_link, 1000000⟩ [1, 2] 999400).2.2
        rx_example_link rfl (by decide) rfl (by decide) (by decide)
     simpa using h⟩

/-- C8, companion evaluation: the example correction is exactly `+1` µs. -/
theorem tsch_handle_rx_example_correction :
    div_round_closest ((1000000 : Int) - 999400) 1000 = 1 := by decide

end ZephyrL2
